import Mathlib

/-!
Verification development for the amplify-monitor log pipeline
(`src/logs.rs` and `src/parser.rs`).

Byte buffers are modelled as `List Nat` (one `Nat` per byte), strings as
Lean `String`.  Rust's `str::contains` (substring containment) is modelled
by `containsStr`; `str::to_lowercase` by per-character lowering (`lower`),
which agrees with Rust on the ASCII literals used by the rules.
-/

namespace AmplifyMonitor

/-- Model of byte-string prefix test: `needle` is a prefix of `hay`. -/
def isPrefixList (needle hay : List Char) : Bool :=
  match needle, hay with
  | [], _ => true
  | _ :: _, [] => false
  | a :: as, b :: bs => a == b && isPrefixList as bs

/-- Model of substring containment on character lists: `needle` occurs
contiguously inside `hay`. -/
def isSubList (needle hay : List Char) : Bool :=
  match hay with
  | [] => needle.isEmpty
  | _ :: rest => isPrefixList needle hay || isSubList needle rest

/-- Model of Rust `str::contains(pat)`: substring containment. -/
def containsStr (hay needle : String) : Bool :=
  isSubList needle.data hay.data

/-- Model of Rust `str::to_lowercase()` by per-character ASCII lowering
(the rule literals are ASCII, where the two coincide). -/
def lower (s : String) : String :=
  ⟨s.data.map Char.toLower⟩

/-- Case-insensitive containment: the Rust idiom
`content.to_lowercase().contains(&pat.to_lowercase())`. -/
def containsLower (content pat : String) : Bool :=
  containsStr (lower content) (lower pat)

theorem isPrefixList_map (f : Char → Char) (needle hay : List Char)
    (h : isPrefixList needle hay = true) :
    isPrefixList (needle.map f) (hay.map f) = true := by
  induction needle generalizing hay with
  | nil => simp [isPrefixList]
  | cons a as ih =>
    cases hay with
    | nil => simp [isPrefixList] at h
    | cons b bs =>
      simp only [isPrefixList, Bool.and_eq_true, beq_iff_eq] at h
      simp only [List.map_cons, isPrefixList, Bool.and_eq_true, beq_iff_eq]
      exact ⟨by rw [h.1], ih bs h.2⟩

theorem isSubList_map (f : Char → Char) (needle hay : List Char)
    (h : isSubList needle hay = true) :
    isSubList (needle.map f) (hay.map f) = true := by
  induction hay with
  | nil =>
    simp only [isSubList, List.isEmpty_iff] at h
    subst h
    simp [isSubList]
  | cons b bs ih =>
    simp only [isSubList, Bool.or_eq_true] at h
    rcases h with h | h
    · simp only [List.map_cons, isSubList, Bool.or_eq_true]
      exact Or.inl (isPrefixList_map f needle (b :: bs) h)
    · simp only [List.map_cons, isSubList, Bool.or_eq_true]
      exact Or.inr (ih h)

/-- A case-sensitive match implies the corresponding case-insensitive match. -/
theorem containsLower_of_containsStr (content pat : String)
    (h : containsStr content pat = true) :
    containsLower content pat = true := by
  unfold containsStr at h
  unfold containsLower containsStr lower
  exact isSubList_map Char.toLower _ _ h

/-- Contrapositive: if even the case-insensitive match fails, the
case-sensitive one fails. -/
theorem containsStr_eq_false (content pat : String)
    (h : containsLower content pat = false) :
    containsStr content pat = false := by
  cases hc : containsStr content pat with
  | false => rfl
  | true => rw [containsLower_of_containsStr content pat hc] at h; cases h

/-- Is `b` a UTF-8 continuation byte (`0x80..0xBF`)? -/
def isContByte (b : Nat) : Bool :=
  0x80 ≤ b && b ≤ 0xBF

/-- Model of strict UTF-8 decoding of a byte sequence to characters, as
performed by Rust `String::from_utf8` / `Read::read_to_string`: rejects
overlong encodings, surrogates, and code points above `0x10FFFF`. -/
def utf8DecodeChars : List Nat → Option (List Char)
  | [] => some []
  | b :: rest =>
    if b < 0x80 then
      (utf8DecodeChars rest).map (fun cs => Char.ofNat b :: cs)
    else if 0xC2 ≤ b && b ≤ 0xDF then
      match rest with
      | [] => none
      | b1 :: rest2 =>
        if isContByte b1 then
          (utf8DecodeChars rest2).map
            (fun cs => Char.ofNat ((b - 0xC0) * 0x40 + (b1 - 0x80)) :: cs)
        else none
    else if 0xE0 ≤ b && b ≤ 0xEF then
      match rest with
      | b1 :: b2 :: rest3 =>
        if isContByte b1 && isContByte b2
            && (b != 0xE0 || 0xA0 ≤ b1) && (b != 0xED || b1 ≤ 0x9F) then
          (utf8DecodeChars rest3).map
            (fun cs =>
              Char.ofNat ((b - 0xE0) * 0x1000 + (b1 - 0x80) * 0x40 + (b2 - 0x80)) :: cs)
        else none
      | _ => none
    else if 0xF0 ≤ b && b ≤ 0xF4 then
      match rest with
      | b1 :: b2 :: b3 :: rest4 =>
        if isContByte b1 && isContByte b2 && isContByte b3
            && (b != 0xF0 || 0x90 ≤ b1) && (b != 0xF4 || b1 ≤ 0x8F) then
          (utf8DecodeChars rest4).map
            (fun cs =>
              Char.ofNat ((b - 0xF0) * 0x40000 + (b1 - 0x80) * 0x1000
                + (b2 - 0x80) * 0x40 + (b3 - 0x80)) :: cs)
        else none
      | _ => none
    else none

/-- UTF-8 decoding to a `String` (`String::from_utf8` on `Vec<u8>`). -/
def utf8DecodeString (bytes : List Nat) : Option String :=
  (utf8DecodeChars bytes).map (fun cs => ⟨cs⟩)

/-! ### Archive container models

The repository delegates the ZIP and GZIP container formats to the `zip`
and `flate2` crates.  Only their contracts matter to the code under
verification, so the containers are modelled symbolically: a ZIP buffer is
the ZIP magic followed by a count and length-prefixed entry payloads; a
GZIP buffer is the GZIP magic followed by the (modelled as uncompressed)
payload.  The magic bytes match the real formats, which is all
`extract_log_content`'s dispatch inspects. -/

/-- Model encoding of a list of ZIP entry payloads after the header. -/
def zipEncodeEntries : List (List Nat) → List Nat
  | [] => []
  | e :: es => e.length :: (e ++ zipEncodeEntries es)

/-- Model of a ZIP archive holding the given entry payloads. -/
def zipEncode (entries : List (List Nat)) : List Nat :=
  0x50 :: 0x4B :: 0x03 :: 0x04 :: entries.length :: zipEncodeEntries entries

/-- Parse `n` length-prefixed entries; `none` on malformed input. -/
def zipDecodeEntries : Nat → List Nat → Option (List (List Nat))
  | 0, [] => some []
  | 0, _ :: _ => none
  | _ + 1, [] => none
  | n + 1, len :: rest =>
    if len ≤ rest.length then
      (zipDecodeEntries n (rest.drop len)).map (fun es => rest.take len :: es)
    else none

/-- Model of `ZipArchive::new` plus entry enumeration: yields the entry
payloads of a well-formed archive, `none` on malformed input. -/
def zipArchiveNew (bytes : List Nat) : Option (List (List Nat)) :=
  match bytes with
  | 0x50 :: 0x4B :: 0x03 :: 0x04 :: n :: rest => zipDecodeEntries n rest
  | _ => none

theorem zipDecodeEntries_zipEncodeEntries (entries : List (List Nat)) :
    zipDecodeEntries entries.length (zipEncodeEntries entries) = some entries := by
  induction entries with
  | nil => rfl
  | cons e es ih =>
    simp only [List.length_cons, zipEncodeEntries, zipDecodeEntries]
    rw [if_pos]
    · rw [List.drop_left, List.take_left, ih]
      rfl
    · simp

/-- Round trip: decoding a model-encoded archive recovers its entries. -/
theorem zipArchiveNew_zipEncode (entries : List (List Nat)) :
    zipArchiveNew (zipEncode entries) = some entries := by
  simp only [zipEncode, zipArchiveNew]
  exact zipDecodeEntries_zipEncodeEntries entries

/-- Model of a GZIP stream with the given decompressed payload. -/
def gzipEncode (payload : List Nat) : List Nat :=
  0x1F :: 0x8B :: payload

/-- Model of `GzDecoder` decompression: recovers the payload of a
well-formed stream, `none` on malformed input. -/
def gzDecode (bytes : List Nat) : Option (List Nat) :=
  match bytes with
  | 0x1F :: 0x8B :: payload => some payload
  | _ => none

/-! ### `src/logs.rs` -/

/-- Concatenate the decoded entries in archive order, each followed by a
newline; the loop body of `extract_from_zip` (`logs.rs` lines 109–120),
failing if any entry is not valid UTF-8. -/
def zipEntriesConcat : List (List Nat) → Except String String
  | [] => Except.ok ""
  | e :: es =>
    match utf8DecodeString e with
    | none => Except.error "Failed to read content of entry"
    | some s =>
      match zipEntriesConcat es with
      | Except.error msg => Except.error msg
      | Except.ok rest => Except.ok (s ++ "\n" ++ rest)

/-- `extract_from_zip` (`logs.rs` lines 103–123). -/
def extract_from_zip (zip_bytes : List Nat) : Except String String :=
  match zipArchiveNew zip_bytes with
  | none => Except.error "Failed to read ZIP archive"
  | some entries => zipEntriesConcat entries

/-- `extract_from_gzip` (`logs.rs` lines 126–133): `read_to_string` both
decompresses and requires valid UTF-8, with a single error context. -/
def extract_from_gzip (gzip_bytes : List Nat) : Except String String :=
  match gzDecode gzip_bytes with
  | none => Except.error "Failed to decompress gzip log"
  | some payload =>
    match utf8DecodeString payload with
    | none => Except.error "Failed to decompress gzip log"
    | some s => Except.ok s

/-- `extract_log_content` (`logs.rs` lines 87–100): magic-byte dispatch.
Byte indexing is guarded by the length tests exactly as in the source
(`bytes.len() >= 4 && bytes[0] == 0x50 && bytes[1] == 0x4B`, then
`bytes.len() >= 2 && bytes[0] == 0x1F && bytes[1] == 0x8B`). -/
def extract_log_content (bytes : List Nat) : Except String String :=
  if 4 ≤ bytes.length ∧ bytes.getD 0 0 = 0x50 ∧ bytes.getD 1 0 = 0x4B then
    extract_from_zip bytes
  else if 2 ≤ bytes.length ∧ bytes.getD 0 0 = 0x1F ∧ bytes.getD 1 0 = 0x8B then
    extract_from_gzip bytes
  else
    match utf8DecodeString bytes with
    | some s => Except.ok s
    | none => Except.error "Failed to decode log as UTF-8 text"

/-- `LogContent` (`logs.rs` lines 15–20). -/
structure LogContent where
  build_log : String
  deploy_log : String
  raw_content : String
deriving Repr, DecidableEq

/-- The empty `LogContent` (`LogContent::default()`). -/
def LogContent.empty : LogContent :=
  { build_log := "", deploy_log := "", raw_content := "" }

/-- Loop body of `download_job_logs` (`logs.rs` lines 44–57): route the
step's extracted text by keyword (`if contains "build" … else if contains
"deploy"`), then append the delimiter block to `raw_content`. -/
def addStep (lc : LogContent) (step_name content : String) : LogContent :=
  let step_lower := lower step_name
  let lc1 :=
    if containsStr step_lower "build" then
      { lc with build_log := lc.build_log ++ content ++ "\n" }
    else if containsStr step_lower "deploy" then
      { lc with deploy_log := lc.deploy_log ++ content ++ "\n" }
    else lc
  { lc1 with
    raw_content := lc1.raw_content ++ "=== " ++ step_name ++ " ===\n" ++ content ++ "\n\n" }

/-- The fetch loop of `download_job_logs` (`logs.rs` lines 41–58); `fetch`
abstracts `download_and_extract_log` (HTTP GET + `extract_log_content`),
mapping a URL to extracted text or an error. -/
def download_steps (fetch : String → Except String String) :
    LogContent → List (String × String) → Except String LogContent
  | lc, [] => Except.ok lc
  | lc, (step_name, url) :: rest =>
    match fetch url with
    | Except.error e => Except.error e
    | Except.ok content => download_steps fetch (addStep lc step_name content) rest

/-- `download_job_logs` (`logs.rs` lines 26–61) given the already-enumerated
`(step_name, url)` pairs from `get_all_log_urls`. -/
def download_job_logs (fetch : String → Except String String)
    (job_id : String) (log_urls : List (String × String)) :
    Except String LogContent :=
  if log_urls.isEmpty then
    Except.error ("No log URLs found for job " ++ job_id)
  else
    download_steps fetch LogContent.empty log_urls

/-! ### `src/parser.rs`

Each Rust checker loops over a literal pattern list (and, for the gated
checkers, an indicator list) and returns the same fixed `Issue` at the
first match; since the returned `Issue` does not depend on which literal
matched, each loop is equivalent to an any-of test, written below as
`List.any`, with the nested pattern/indicator loops as a conjunction. -/

/-- `Issue` (`parser.rs` lines 13–17). -/
structure Issue where
  pattern : String
  root_cause : String
  suggested_fixes : List String
deriving Repr, DecidableEq

/-- `check_lockfile_mismatch` (`parser.rs` lines 58–77). -/
def check_lockfile_mismatch (content : String) : Option Issue :=
  let has_npm_lock_error := containsStr content "npm WARN"
    && (containsStr content "package-lock.json" || containsStr content "npm-shrinkwrap.json")
  let has_pnpm_lock := containsStr content "pnpm-lock.yaml"
  let has_yarn_lock := containsStr content "yarn.lock"
  if has_npm_lock_error && (has_pnpm_lock || has_yarn_lock) then
    some { pattern := "lockfile_mismatch",
           root_cause := "Multiple lock files detected or package manager mismatch",
           suggested_fixes := [
             "Remove conflicting lock files (keep only one)",
             "Update amplify.yml to use the correct package manager",
             "Run 'npm ci' with package-lock.json OR 'pnpm install --frozen-lockfile' with pnpm-lock.yaml"] }
  else none

/-- `check_package_manager_conflict` (`parser.rs` lines 80–103). -/
def check_package_manager_conflict (content : String) : Option Issue :=
  let uses_npm := containsStr content "npm install" || containsStr content "npm ci"
  let uses_pnpm := containsStr content "pnpm install"
  let uses_yarn := containsStr content "yarn install"
  let count := ([uses_npm, uses_pnpm, uses_yarn].filter (fun x => x)).length
  if 1 < count then
    some { pattern := "package_manager_conflict",
           root_cause := "Multiple package managers detected in build",
           suggested_fixes := [
             "Use only one package manager consistently",
             "Update amplify.yml preBuild and build commands",
             "Ensure CI environment matches local development"] }
  else none

/-- `check_node_version_mismatch` (`parser.rs` lines 106–133):
case-insensitive any-of. -/
def check_node_version_mismatch (content : String) : Option Issue :=
  if ["engine \"node\" is incompatible", "The engine \"node\" is incompatible",
      "expected node version", "NODE_VERSION", "nvm use",
      "unsupported engine"].any (fun p => containsLower content p) then
    some { pattern := "node_version_mismatch",
           root_cause := "Node.js version in Amplify doesn't match project requirements",
           suggested_fixes := [
             "Add 'nvm use' to preBuild commands in amplify.yml",
             "Set Node.js version in Amplify console build settings",
             "Add .nvmrc file to repository root",
             "Update package.json engines field"] }
  else none

/-- `check_missing_env_vars` (`parser.rs` lines 136–169): case-sensitive
patterns gated by lowercased-corpus indicators. -/
def check_missing_env_vars (content : String) : Option Issue :=
  if (["environment variable", "env var", "process.env", "undefined variable",
       "REACT_APP_", "NEXT_PUBLIC_", "VITE_"].any (fun p => containsStr content p))
      && (["undefined", "not set", "missing", "required"].any
            (fun i => containsStr (lower content) i)) then
    some { pattern := "missing_env_vars",
           root_cause := "Required environment variables are not configured",
           suggested_fixes := [
             "Add missing environment variables in Amplify console",
             "Check for typos in variable names",
             "Ensure variables are set for the correct branch/environment"] }
  else none

/-- `check_npm_ci_failure` (`parser.rs` lines 172–196): case-sensitive
any-of. -/
def check_npm_ci_failure (content : String) : Option Issue :=
  if ["npm ERR! cipm can only install", "npm ERR! `npm ci` can only install",
      "npm ERR! code EUSAGE",
      "npm ERR! The `npm ci` command"].any (fun p => containsStr content p) then
    some { pattern := "npm_ci_failure",
           root_cause := "npm ci failed - likely due to package-lock.json sync issues",
           suggested_fixes := [
             "Run 'npm install' locally to regenerate package-lock.json",
             "Commit the updated package-lock.json",
             "Ensure package-lock.json is not in .gitignore"] }
  else none

/-- `check_pnpm_install_failure` (`parser.rs` lines 199–223): case-sensitive
any-of. -/
def check_pnpm_install_failure (content : String) : Option Issue :=
  if ["ERR_PNPM_", "pnpm: command not found", "WARN  Moving",
      "ERR_PNPM_PEER_DEP_ISSUES",
      "ERR_PNPM_LOCKFILE_BREAKING_CHANGE"].any (fun p => containsStr content p) then
    some { pattern := "pnpm_install_failure",
           root_cause := "pnpm installation failed",
           suggested_fixes := [
             "Install pnpm in preBuild: 'npm install -g pnpm'",
             "Run 'pnpm install' locally to update lock file",
             "Check pnpm version compatibility"] }
  else none

/-- `check_yarn_install_failure` (`parser.rs` lines 353–385): case-sensitive
patterns gated by case-insensitive indicators. -/
def check_yarn_install_failure (content : String) : Option Issue :=
  if (["error An unexpected error occurred", "yarn install", "YN0001",
       "YN0002", "YARN_", "yarn.lock"].any (fun p => containsStr content p))
      && (["error", "failed", "ENOENT", "EPERM"].any
            (fun i => containsLower content i)) then
    some { pattern := "yarn_install_failure",
           root_cause := "Yarn installation failed",
           suggested_fixes := [
             "Run 'yarn install' locally and commit yarn.lock",
             "Ensure yarn is installed in preBuild: 'npm install -g yarn'",
             "Check yarn version compatibility"] }
  else none

/-- `check_amplify_yml_error` (`parser.rs` lines 226–258): case-insensitive
patterns gated by lowercased-corpus indicators. -/
def check_amplify_yml_error (content : String) : Option Issue :=
  if (["amplify.yml", "buildspec", "YAMLException", "Invalid buildspec",
       "build specification"].any (fun p => containsLower content p))
      && (["error", "invalid", "failed to parse", "syntax"].any
            (fun i => containsStr (lower content) i)) then
    some { pattern := "amplify_yml_error",
           root_cause := "amplify.yml buildspec has configuration errors",
           suggested_fixes := [
             "Validate YAML syntax in amplify.yml",
             "Check indentation (use spaces, not tabs)",
             "Verify all required phases are defined (preBuild, build, artifacts)",
             "Reference: https://docs.aws.amazon.com/amplify/latest/userguide/build-settings.html"] }
  else none

/-- `check_out_of_memory` (`parser.rs` lines 261–287): case-insensitive
any-of. -/
def check_out_of_memory (content : String) : Option Issue :=
  if ["FATAL ERROR: CALL_AND_RETRY_LAST Allocation failed",
      "FATAL ERROR: Ineffective mark-compacts", "JavaScript heap out of memory",
      "ENOMEM", "out of memory", "OOMKilled"].any (fun p => containsLower content p) then
    some { pattern := "out_of_memory",
           root_cause := "Build process ran out of memory",
           suggested_fixes := [
             "Add NODE_OPTIONS=--max_old_space_size=4096 to environment variables",
             "Optimize build by reducing bundle size",
             "Consider using a larger Amplify build instance"] }
  else none

/-- `check_timeout` (`parser.rs` lines 290–315): case-insensitive any-of. -/
def check_timeout (content : String) : Option Issue :=
  if ["timed out", "timeout", "Build timeout", "exceeded time limit",
      "ETIMEDOUT"].any (fun p => containsLower content p) then
    some { pattern := "timeout",
           root_cause := "Build exceeded time limit",
           suggested_fixes := [
             "Increase build timeout in Amplify console",
             "Optimize build steps to run faster",
             "Check for hanging processes or infinite loops",
             "Consider caching node_modules"] }
  else none

/-- `check_artifact_path_error` (`parser.rs` lines 318–350): case-sensitive
patterns gated by case-sensitive context words. -/
def check_artifact_path_error (content : String) : Option Issue :=
  if (["artifacts baseDirectory", "No such file or directory", "ENOENT",
       "build artifacts not found", "baseDirectory"].any
        (fun p => containsStr content p))
      && (["artifacts", "output", "dist", "build", ".next"].any
            (fun c => containsStr content c)) then
    some { pattern := "artifact_path_error",
           root_cause := "Build artifacts directory not found or misconfigured",
           suggested_fixes := [
             "Verify baseDirectory in amplify.yml matches actual build output",
             "Common paths: 'dist', 'build', '.next', 'out'",
             "Ensure build command actually generates output"] }
  else none

/-- `check_typescript_error` (`parser.rs` lines 388–416): case-sensitive
any-of. -/
def check_typescript_error (content : String) : Option Issue :=
  if ["error TS", "TS2304", "TS2307", "TS2345", "TS2339", "Cannot find module",
      "Type error:", "tsc exited with code"].any (fun p => containsStr content p) then
    some { pattern := "typescript_error",
           root_cause := "TypeScript compilation failed",
           suggested_fixes := [
             "Fix TypeScript errors locally before pushing",
             "Run 'npx tsc --noEmit' to check for errors",
             "Ensure all type definitions are installed (@types/*)",
             "Check tsconfig.json for correct configuration"] }
  else none

/-- `check_eslint_error` (`parser.rs` lines 419–444): case-sensitive
patterns gated by case-sensitive indicators, each conjoined with a literal
`contains("eslint")` test. -/
def check_eslint_error (content : String) : Option Issue :=
  if (["eslint", "ESLint", "Parsing error:", "error  ", "âœ– "].any
        (fun p => containsStr content p))
      && (["problems", "error", "Rule:", "eslint-disable"].any
            (fun i => containsStr content i && containsStr content "eslint")) then
    some { pattern := "eslint_error",
           root_cause := "ESLint validation failed",
           suggested_fixes := [
             "Run 'npm run lint' or 'npx eslint .' locally",
             "Fix linting errors or adjust rules in .eslintrc",
             "Consider adding 'CI=false' to skip lint warnings as errors"] }
  else none

/-- `check_module_not_found` (`parser.rs` lines 447–473): case-sensitive
any-of. -/
def check_module_not_found (content : String) : Option Issue :=
  if ["Module not found", "Cannot find module", "Module build failed",
      "ModuleNotFoundError", "Error: Cannot resolve"].any
       (fun p => containsStr content p) then
    some { pattern := "module_not_found",
           root_cause := "Required module/package not found",
           suggested_fixes := [
             "Ensure all dependencies are listed in package.json",
             "Check import paths for typos or case sensitivity",
             "Verify the module is not in devDependencies when needed in production",
             "Run 'npm install' to ensure all packages are installed"] }
  else none

/-- `check_permission_denied` (`parser.rs` lines 476–500): case-sensitive
any-of. -/
def check_permission_denied (content : String) : Option Issue :=
  if ["EACCES", "permission denied", "Permission denied", "EPERM",
      "operation not permitted"].any (fun p => containsStr content p) then
    some { pattern := "permission_denied",
           root_cause := "File system permission error",
           suggested_fixes := [
             "Avoid writing to read-only directories",
             "Use /tmp for temporary files in Amplify builds",
             "Check file permissions in repository"] }
  else none

/-- `check_network_error` (`parser.rs` lines 503–529): case-sensitive
any-of. -/
def check_network_error (content : String) : Option Issue :=
  if ["ENOTFOUND", "ECONNREFUSED", "ECONNRESET", "EAI_AGAIN", "getaddrinfo",
      "network request failed", "socket hang up"].any
       (fun p => containsStr content p) then
    some { pattern := "network_error",
           root_cause := "Network connectivity issue during build",
           suggested_fixes := [
             "Retry the build - may be a transient network issue",
             "Check if npm registry or external services are accessible",
             "Consider using a private npm registry or cache"] }
  else none

/-- `check_docker_error` (`parser.rs` lines 532–557): case-insensitive
patterns gated by lowercased-corpus indicators. -/
def check_docker_error (content : String) : Option Issue :=
  if (["docker", "Dockerfile", "container", "DOCKER_"].any
        (fun p => containsLower content p))
      && (["error", "failed", "not found", "denied"].any
            (fun i => containsStr (lower content) i)) then
    some { pattern := "docker_error",
           root_cause := "Docker/container build issue",
           suggested_fixes := [
             "Verify Dockerfile syntax and base image availability",
             "Check Docker build context and .dockerignore",
             "Ensure Docker commands are supported in Amplify build environment"] }
  else none

/-- `check_python_error` (`parser.rs` lines 560–590): case-sensitive
patterns gated by lowercased-corpus indicators. -/
def check_python_error (content : String) : Option Issue :=
  if (["ModuleNotFoundError: No module named", "pip install", "python:",
       "SyntaxError:", "ImportError:"].any (fun p => containsStr content p))
      && (["error", "failed", "not found"].any
            (fun i => containsStr (lower content) i)) then
    some { pattern := "python_error",
           root_cause := "Python dependency or syntax error",
           suggested_fixes := [
             "Add Python packages to requirements.txt",
             "Install Python dependencies in preBuild phase",
             "Verify Python version compatibility"] }
  else none

/-- `check_next_js_error` (`parser.rs` lines 593–626): case-sensitive
patterns gated by case-sensitive indicators. -/
def check_next_js_error (content : String) : Option Issue :=
  if (["next build", "Error occurred prerendering", "getStaticProps",
       "getServerSideProps", "next.config", "NEXT_"].any
        (fun p => containsStr content p))
      && (["error", "failed", "Error:"].any (fun i => containsStr content i)) then
    some { pattern := "nextjs_error",
           root_cause := "Next.js build or configuration error",
           suggested_fixes := [
             "Run 'npm run build' locally to reproduce the error",
             "Check getStaticProps/getServerSideProps for runtime errors",
             "Verify NEXT_PUBLIC_* environment variables are set",
             "Set baseDirectory to '.next' in amplify.yml artifacts"] }
  else none

/-- `check_vite_error` (`parser.rs` lines 629–654): case-sensitive patterns
gated by case-sensitive indicators. -/
def check_vite_error (content : String) : Option Issue :=
  if (["vite build", "vite:", "VITE_", "rollup", "esbuild"].any
        (fun p => containsStr content p))
      && (["error", "failed", "Error:"].any (fun i => containsStr content i)) then
    some { pattern := "vite_error",
           root_cause := "Vite build or bundling error",
           suggested_fixes := [
             "Run 'npm run build' locally to reproduce",
             "Verify VITE_* environment variables are set in Amplify",
             "Set baseDirectory to 'dist' in amplify.yml artifacts",
             "Check vite.config.ts for build configuration issues"] }
  else none

/-- The checker registry of `analyze_logs` (`parser.rs` lines 25–46),
in registration order. -/
def checkers : List (String → Option Issue) :=
  [check_lockfile_mismatch,
   check_package_manager_conflict,
   check_node_version_mismatch,
   check_missing_env_vars,
   check_npm_ci_failure,
   check_pnpm_install_failure,
   check_yarn_install_failure,
   check_amplify_yml_error,
   check_out_of_memory,
   check_timeout,
   check_artifact_path_error,
   check_typescript_error,
   check_eslint_error,
   check_module_not_found,
   check_permission_denied,
   check_network_error,
   check_docker_error,
   check_python_error,
   check_next_js_error,
   check_vite_error]

/-- `analyze_logs` (`parser.rs` lines 20–55): run every checker over
`raw_content`, collecting the fired issues in registration order. -/
def analyze_logs (logs : LogContent) : List Issue :=
  checkers.filterMap (fun checker => checker logs.raw_content)

/-! ### Helper lemmas about corpus assembly -/

/-- Concatenation of a list of strings. -/
def joinAll : List String → String
  | [] => ""
  | s :: rest => s ++ joinAll rest

/-- Closed form of the `download_job_logs` fetch loop when every fetch
succeeds: `raw_content` collects every step's delimiter block in order,
`build_log` the steps whose lowercased name contains `"build"`, and
`deploy_log` the steps whose lowercased name contains `"deploy"` but not
`"build"` (the `else if`). -/
theorem download_steps_spec (fetch : String → Except String String) (g : String → String) :
    ∀ (urls : List (String × String)) (lc : LogContent),
      (∀ p ∈ urls, fetch p.2 = Except.ok (g p.2)) →
      download_steps fetch lc urls = Except.ok
        { build_log := lc.build_log ++
            joinAll ((urls.filter (fun p => containsStr (lower p.1) "build")).map
              (fun p => g p.2 ++ "\n")),
          deploy_log := lc.deploy_log ++
            joinAll ((urls.filter (fun p =>
                !containsStr (lower p.1) "build" && containsStr (lower p.1) "deploy")).map
              (fun p => g p.2 ++ "\n")),
          raw_content := lc.raw_content ++
            joinAll (urls.map (fun p => "=== " ++ p.1 ++ " ===\n" ++ g p.2 ++ "\n\n")) } := by
  intro urls
  induction urls with
  | nil =>
    intro lc _
    simp [download_steps, joinAll, String.append_empty]
  | cons head tail ih =>
    intro lc hf
    obtain ⟨name, url⟩ := head
    have hhead : fetch url = Except.ok (g url) := hf (name, url) (by simp)
    have htail : ∀ p ∈ tail, fetch p.2 = Except.ok (g p.2) := fun p hp => hf p (by simp [hp])
    simp only [download_steps, hhead]
    rw [ih (addStep lc name (g url)) htail]
    cases hb : containsStr (lower name) "build" with
    | true =>
      simp [addStep, hb, joinAll, List.filter_cons, String.append_assoc]
    | false =>
      cases hd : containsStr (lower name) "deploy" with
      | true => simp [addStep, hb, hd, joinAll, List.filter_cons, String.append_assoc]
      | false => simp [addStep, hb, hd, joinAll, List.filter_cons, String.append_assoc]

/-- The loop returns the error of the first failing fetch. -/
theorem download_steps_error (fetch : String → Except String String) (g : String → String)
    (name url e : String) (post : List (String × String)) :
    ∀ (pre : List (String × String)) (lc : LogContent),
      (∀ p ∈ pre, fetch p.2 = Except.ok (g p.2)) →
      fetch url = Except.error e →
      download_steps fetch lc (pre ++ (name, url) :: post) = Except.error e := by
  intro pre
  induction pre with
  | nil =>
    intro lc _ herr
    simp [download_steps, herr]
  | cons head tail ih =>
    intro lc hf herr
    obtain ⟨n, u⟩ := head
    have hhead : fetch u = Except.ok (g u) := hf (n, u) (by simp)
    have htail : ∀ p ∈ tail, fetch p.2 = Except.ok (g p.2) := fun p hp => hf p (by simp [hp])
    simp only [List.cons_append, download_steps, hhead]
    exact ih (addStep lc n (g u)) htail herr

/-! ### Claims -/

/-- Claim C1, counterexample: for the single step named "Build and Deploy"
(whose lowercased name contains both "build" and "deploy") with extracted
text "L", the assembled corpus has `build_log = "L\n"` but `deploy_log`
empty — the text is not appended to both sub-corpora. -/
theorem both_keywords_step_cex :
    download_job_logs (fun _ => Except.ok "L") "j" [("Build and Deploy", "u")]
      = Except.ok
          { build_log := "L\n", deploy_log := "",
            raw_content := "=== Build and Deploy ===\nL\n\n" }
    ∧ containsStr (lower "Build and Deploy") "build" = true
    ∧ containsStr (lower "Build and Deploy") "deploy" = true :=
  ⟨rfl, by decide, by decide⟩

/-- Claim C1, amended: a step whose name contains (case-insensitively) the
keyword "build" — even when it also contains "deploy" — has its extracted
text appended only to `build_log`; `deploy_log` is left unchanged, because
the `deploy` branch is an `else if` of the `build` branch. -/
theorem both_keywords_step_only_build (lc : LogContent) (step content : String)
    (hb : containsStr (lower step) "build" = true) :
    (addStep lc step content).build_log = lc.build_log ++ content ++ "\n"
    ∧ (addStep lc step content).deploy_log = lc.deploy_log := by
  simp [addStep, hb]

/-- Witness for the amended claim C1 at the step name "Build and Deploy". -/
theorem both_keywords_step_only_build_witness :
    containsStr (lower "Build and Deploy") "build" = true
    ∧ ((addStep LogContent.empty "Build and Deploy" "L").build_log
          = LogContent.empty.build_log ++ "L" ++ "\n"
        ∧ (addStep LogContent.empty "Build and Deploy" "L").deploy_log
          = LogContent.empty.deploy_log) :=
  ⟨by decide,
   both_keywords_step_only_build LogContent.empty "Build and Deploy" "L" (by decide)⟩

/-- Claim C7: if every fetch succeeds and the ref list is non-empty, the
assembled `raw_content` is exactly the in-order concatenation of
`=== <stepName> ===\n` followed by the step's extracted text followed by a
blank line (`\n\n`). -/
theorem raw_content_delimited_concat (fetch : String → Except String String)
    (g : String → String) (jid : String) (urls : List (String × String))
    (hf : ∀ p ∈ urls, fetch p.2 = Except.ok (g p.2)) (hne : urls ≠ []) :
    (download_job_logs fetch jid urls).map (fun lc => lc.raw_content)
      = Except.ok (joinAll (urls.map (fun p => "=== " ++ p.1 ++ " ===\n" ++ g p.2 ++ "\n\n"))) := by
  cases urls with
  | nil => exact absurd rfl hne
  | cons head tail =>
    simp only [download_job_logs, List.isEmpty_cons, if_false, Bool.false_eq_true]
    rw [download_steps_spec fetch g (head :: tail) LogContent.empty hf]
    simp [LogContent.empty, String.empty_append, Except.map]

/-- Witness for claim C7 with two steps fetched via the identity mapping. -/
theorem raw_content_delimited_concat_witness :
    (∀ p ∈ [("Build", "b"), ("Deploy", "d")],
        (fun u => (Except.ok (String.append "out " u) : Except String String)) p.2
          = Except.ok ((fun u => String.append "out " u) p.2))
    ∧ ([("Build", "b"), ("Deploy", "d")] ≠ ([] : List (String × String)))
    ∧ (download_job_logs (fun u => (Except.ok (String.append "out " u) : Except String String)) "job"
          [("Build", "b"), ("Deploy", "d")]).map (fun lc => lc.raw_content)
        = Except.ok (joinAll ([("Build", "b"), ("Deploy", "d")].map
            (fun p => "=== " ++ p.1 ++ " ===\n" ++ (fun u => String.append "out " u) p.2 ++ "\n\n"))) :=
  ⟨fun p _ => rfl, by simp,
   raw_content_delimited_concat (fun u => (Except.ok (String.append "out " u) : Except String String))
     (fun u => String.append "out " u) "job" [("Build", "b"), ("Deploy", "d")]
     (fun p _ => rfl) (by simp)⟩

/-- Claim C8: an empty ref list always yields the no-artifacts error and
never a successful (empty) corpus. -/
theorem no_artifacts_error (fetch : String → Except String String) (jid : String) :
    download_job_logs fetch jid []
      = Except.error ("No log URLs found for job " ++ jid) := rfl

/-- Claim C9: if every fetch before some ref succeeds and that ref's fetch
fails with error `e`, the whole assembly returns `Except.error e` — no
partial corpus. -/
theorem fetch_failure_aborts (fetch : String → Except String String)
    (g : String → String) (jid name url e : String)
    (pre post : List (String × String))
    (hpre : ∀ p ∈ pre, fetch p.2 = Except.ok (g p.2))
    (herr : fetch url = Except.error e) :
    download_job_logs fetch jid (pre ++ (name, url) :: post) = Except.error e := by
  have hne : (pre ++ (name, url) :: post).isEmpty = false := by
    cases pre <;> simp
  simp only [download_job_logs, hne, Bool.false_eq_true, if_false]
  exact download_steps_error fetch g name url e post pre LogContent.empty hpre herr

/-- Witness for claim C9: the second of three refs fails. -/
theorem fetch_failure_aborts_witness :
    (∀ p ∈ [("Build", "ok1")],
        (fun u => if u = "bad" then Except.error "HTTP 403" else Except.ok u) p.2
          = Except.ok ((fun u => u) p.2))
    ∧ ((fun u => if u = "bad" then Except.error "HTTP 403" else Except.ok u) "bad"
        = Except.error "HTTP 403")
    ∧ download_job_logs (fun u => if u = "bad" then Except.error "HTTP 403" else Except.ok u)
        "job" ([("Build", "ok1")] ++ ("Deploy", "bad") :: [("Verify", "ok2")])
        = Except.error "HTTP 403" :=
  ⟨by intro p hp; simp at hp; subst hp; rfl, rfl,
   fetch_failure_aborts (fun u => if u = "bad" then Except.error "HTTP 403" else Except.ok u)
     (fun u => u) "job" "Deploy" "bad" "HTTP 403" [("Build", "ok1")] [("Verify", "ok2")]
     (by intro p hp; simp at hp; subst hp; rfl) rfl⟩

/-- Claim C10: the sub-corpora carry no `=== <stepName> ===` delimiters:
`build_log` is exactly the concatenation, in ref order, of the extracted
texts of the steps routed to the build phase (lowercased name contains
"build"), each followed by a single newline, and `deploy_log` likewise for
the steps routed to the deploy phase (name contains "deploy" but not
"build", by the `else if`). -/
theorem sub_corpora_no_delimiters (fetch : String → Except String String)
    (g : String → String) (jid : String) (urls : List (String × String))
    (hf : ∀ p ∈ urls, fetch p.2 = Except.ok (g p.2)) (hne : urls ≠ []) :
    (download_job_logs fetch jid urls).map (fun lc => lc.build_log)
      = Except.ok (joinAll ((urls.filter (fun p => containsStr (lower p.1) "build")).map
          (fun p => g p.2 ++ "\n")))
    ∧ (download_job_logs fetch jid urls).map (fun lc => lc.deploy_log)
      = Except.ok (joinAll ((urls.filter (fun p =>
            !containsStr (lower p.1) "build" && containsStr (lower p.1) "deploy")).map
          (fun p => g p.2 ++ "\n"))) := by
  cases urls with
  | nil => exact absurd rfl hne
  | cons head tail =>
    simp only [download_job_logs, List.isEmpty_cons, if_false, Bool.false_eq_true]
    rw [download_steps_spec fetch g (head :: tail) LogContent.empty hf]
    simp [LogContent.empty, String.empty_append, Except.map]

/-- Witness for claim C10 with build, deploy and unmatched steps. -/
theorem sub_corpora_no_delimiters_witness :
    (∀ p ∈ [("Build", "b"), ("Deploy", "d"), ("Other", "o")],
        (fun u => (Except.ok (String.append u u) : Except String String)) p.2
          = Except.ok ((fun u => String.append u u) p.2))
    ∧ ([("Build", "b"), ("Deploy", "d"), ("Other", "o")] ≠ ([] : List (String × String)))
    ∧ ((download_job_logs (fun u => (Except.ok (String.append u u) : Except String String)) "job"
            [("Build", "b"), ("Deploy", "d"), ("Other", "o")]).map (fun lc => lc.build_log)
        = Except.ok (joinAll (([("Build", "b"), ("Deploy", "d"), ("Other", "o")].filter
            (fun p => containsStr (lower p.1) "build")).map
              (fun p => (fun u => String.append u u) p.2 ++ "\n")))
      ∧ (download_job_logs (fun u => (Except.ok (String.append u u) : Except String String)) "job"
            [("Build", "b"), ("Deploy", "d"), ("Other", "o")]).map (fun lc => lc.deploy_log)
        = Except.ok (joinAll (([("Build", "b"), ("Deploy", "d"), ("Other", "o")].filter
            (fun p => !containsStr (lower p.1) "build" && containsStr (lower p.1) "deploy")).map
              (fun p => (fun u => String.append u u) p.2 ++ "\n")))) :=
  ⟨fun p _ => rfl, by simp,
   sub_corpora_no_delimiters (fun u => (Except.ok (String.append u u) : Except String String))
     (fun u => String.append u u) "job" [("Build", "b"), ("Deploy", "d"), ("Other", "o")]
     (fun p _ => rfl) (by simp)⟩

/-- Claim C3, counterexample: a ZIP archive whose single entry decodes to
"hi" extracts to "hi\n", not to "hi" — `extract_from_zip` appends a newline
after every entry, so the round trip is not exact. -/
theorem zip_roundtrip_cex :
    utf8DecodeString [104, 105] = some "hi"
    ∧ extract_log_content (zipEncode [[104, 105]]) = Except.ok "hi\n"
    ∧ "hi\n" ≠ "hi" :=
  ⟨by decide, rfl, by decide⟩

/-- Claim C3, amended round trip: a ZIP archive with one entry decoding to
`t` extracts to `t ++ "\n"` (the zip path newline-terminates every entry);
a GZIP stream whose payload decodes to `t` extracts to exactly `t`; and a
plain UTF-8 buffer whose first two bytes are neither the ZIP nor the GZIP
magic extracts to exactly its text. -/
theorem archive_extraction_roundtrip :
    (∀ (bs : List Nat) (t : String), utf8DecodeString bs = some t →
      extract_log_content (zipEncode [bs]) = Except.ok (t ++ "\n"))
    ∧ (∀ (bs : List Nat) (t : String), utf8DecodeString bs = some t →
      extract_log_content (gzipEncode bs) = Except.ok t)
    ∧ (∀ (bs : List Nat) (t : String), utf8DecodeString bs = some t →
      ¬(bs.getD 0 0 = 0x50 ∧ bs.getD 1 0 = 0x4B) →
      ¬(bs.getD 0 0 = 0x1F ∧ bs.getD 1 0 = 0x8B) →
      extract_log_content bs = Except.ok t) := by
  refine ⟨fun bs t h => ?_, fun bs t h => ?_, fun bs t h hz hg => ?_⟩
  · rw [extract_log_content, if_pos]
    · rw [extract_from_zip, zipArchiveNew_zipEncode]
      simp [zipEntriesConcat, h, String.append_empty, String.append_assoc]
    · refine ⟨?_, rfl, rfl⟩
      simp [zipEncode]
  · rw [extract_log_content, if_neg, if_pos]
    · rw [extract_from_gzip]
      simp [gzipEncode, gzDecode, h]
    · exact ⟨by simp [gzipEncode], rfl, rfl⟩
    · rintro ⟨-, hfirst, -⟩
      simp [gzipEncode] at hfirst
  · rw [extract_log_content, if_neg, if_neg]
    · rw [h]
    · rintro ⟨-, h1, h2⟩
      exact hg ⟨h1, h2⟩
    · rintro ⟨-, h1, h2⟩
      exact hz ⟨h1, h2⟩

/-- Witness for the amended claim C3 at the two-byte text "hi". -/
theorem archive_extraction_roundtrip_witness :
    utf8DecodeString [104, 105] = some "hi"
    ∧ extract_log_content (zipEncode [[104, 105]]) = Except.ok ("hi" ++ "\n")
    ∧ extract_log_content (gzipEncode [104, 105]) = Except.ok "hi"
    ∧ ¬([104, 105].getD 0 0 = 0x50 ∧ [104, 105].getD 1 0 = 0x4B)
    ∧ extract_log_content [104, 105] = Except.ok "hi" :=
  ⟨by decide,
   archive_extraction_roundtrip.1 [104, 105] "hi" (by decide),
   archive_extraction_roundtrip.2.1 [104, 105] "hi" (by decide),
   by decide,
   archive_extraction_roundtrip.2.2 [104, 105] "hi" (by decide) (by decide) (by decide)⟩

/-- Claim C4, counterexample: the two-byte buffer `[0x50, 0x4B]` starts with
the ZIP magic but is decoded as plain UTF-8 text "PK" (the zip branch
requires `bytes.len() >= 4`), while the ZIP extractor itself would have
returned an archive error. -/
theorem pk_short_buffer_cex :
    extract_log_content [0x50, 0x4B] = Except.ok "PK"
    ∧ extract_from_zip [0x50, 0x4B] = Except.error "Failed to read ZIP archive" :=
  ⟨rfl, rfl⟩

/-- Claim C4, amended: for every buffer of length at least 4 whose first two
bytes are `0x50 0x4B`, extraction takes the ZIP path (decode entries or fail
with an extraction error) and never falls through to the plain-text UTF-8
decode; buffers of length 2 or 3 with the PK prefix instead fall through to
the plain-text decode. -/
theorem pk_buffer_zip_path (bytes : List Nat) (hlen : 4 ≤ bytes.length)
    (h0 : bytes.getD 0 0 = 0x50) (h1 : bytes.getD 1 0 = 0x4B) :
    extract_log_content bytes = extract_from_zip bytes := by
  rw [extract_log_content, if_pos ⟨hlen, h0, h1⟩]

/-- Witness for the amended claim C4 at a malformed 4-byte PK buffer. -/
theorem pk_buffer_zip_path_witness :
    4 ≤ [0x50, 0x4B, 0, 0].length
    ∧ extract_log_content [0x50, 0x4B, 0, 0] = extract_from_zip [0x50, 0x4B, 0, 0] :=
  ⟨by decide, pk_buffer_zip_path [0x50, 0x4B, 0, 0] (by decide) (by decide) (by decide)⟩

/-! ### Helper lemmas about the rule battery -/

theorem isSome_if (b : Bool) (i : Issue) :
    (if b then some i else none : Option Issue).isSome = b := by
  cases b <;> simp

/-- The pattern tags of the registered checkers, in registration order. -/
def ruleTags : List String :=
  ["lockfile_mismatch", "package_manager_conflict", "node_version_mismatch",
   "missing_env_vars", "npm_ci_failure", "pnpm_install_failure",
   "yarn_install_failure", "amplify_yml_error", "out_of_memory", "timeout",
   "artifact_path_error", "typescript_error", "eslint_error",
   "module_not_found", "permission_denied", "network_error", "docker_error",
   "python_error", "nextjs_error", "vite_error"]

theorem filterMap_pattern_sublist (content : String)
    {cs : List (String → Option Issue)} {ts : List String}
    (h : List.Forall₂ (fun c t => ∀ i, c content = some i → i.pattern = t) cs ts) :
    ((cs.filterMap (fun c => c content)).map Issue.pattern).Sublist ts := by
  induction h with
  | nil => simp
  | @cons c t cs' ts' hct _ ih =>
    cases hc : c content with
    | none => simp only [List.filterMap_cons, hc]; exact ih.cons t
    | some i =>
      simp only [List.filterMap_cons, hc, List.map_cons, hct i hc]
      exact ih.cons₂ t

theorem length_filterMap_countP (content : String) :
    ∀ cs : List (String → Option Issue),
      (cs.filterMap (fun c => c content)).length
        = cs.countP (fun c => (c content).isSome) := by
  intro cs
  induction cs with
  | nil => rfl
  | cons c cs' ih =>
    cases hc : c content with
    | none => simp [List.filterMap_cons, List.countP_cons, hc, ih]
    | some i => simp [List.filterMap_cons, List.countP_cons, hc, ih]

/-- Each registered checker can only ever emit its own fixed tag. -/
theorem checkers_tags (content : String) :
    List.Forall₂ (fun c t => ∀ i, c content = some i → i.pattern = t)
      checkers ruleTags := by
  unfold checkers ruleTags
  refine List.Forall₂.cons ?_ (List.Forall₂.cons ?_ (List.Forall₂.cons ?_
    (List.Forall₂.cons ?_ (List.Forall₂.cons ?_ (List.Forall₂.cons ?_
    (List.Forall₂.cons ?_ (List.Forall₂.cons ?_ (List.Forall₂.cons ?_
    (List.Forall₂.cons ?_ (List.Forall₂.cons ?_ (List.Forall₂.cons ?_
    (List.Forall₂.cons ?_ (List.Forall₂.cons ?_ (List.Forall₂.cons ?_
    (List.Forall₂.cons ?_ (List.Forall₂.cons ?_ (List.Forall₂.cons ?_
    (List.Forall₂.cons ?_ (List.Forall₂.cons ?_
      List.Forall₂.nil)))))))))))))))))))
  all_goals
    intro i hsome
    simp only [check_lockfile_mismatch, check_package_manager_conflict,
      check_node_version_mismatch, check_missing_env_vars, check_npm_ci_failure,
      check_pnpm_install_failure, check_yarn_install_failure,
      check_amplify_yml_error, check_out_of_memory, check_timeout,
      check_artifact_path_error, check_typescript_error, check_eslint_error,
      check_module_not_found, check_permission_denied, check_network_error,
      check_docker_error, check_python_error, check_next_js_error,
      check_vite_error] at hsome
    split at hsome
    · injection hsome with hi
      subst hi
      rfl
    · cases hsome

/-- Claim C2, counterexample: the npm_ci_failure and typescript_error rules
are not case-insensitive: on the all-lowercase corpora below, the lowercased
corpus contains the lowercase of a trigger literal, yet the rule abstains. -/
theorem anyof_case_sensitivity_cex :
    containsLower "npm err! code eusage" "npm ERR! code EUSAGE" = true
    ∧ check_npm_ci_failure "npm err! code eusage" = none
    ∧ containsLower "type error: x" "Type error:" = true
    ∧ check_typescript_error "type error: x" = none :=
  ⟨by decide, by decide, by decide, by decide⟩

/-- Claim C2, amended: the battery mixes both behaviours. The
npm_ci_failure and typescript_error any-of rules are case-sensitive — each
fires iff the corpus contains one of its literal substrings exactly —
while, e.g., the out_of_memory any-of rule is case-insensitive, firing iff
the lowercased corpus contains the lowercase of one of its literals. -/
theorem anyof_case_sensitivity (content : String) :
    (check_npm_ci_failure content).isSome
      = (["npm ERR! cipm can only install", "npm ERR! `npm ci` can only install",
          "npm ERR! code EUSAGE", "npm ERR! The `npm ci` command"].any
           (fun p => containsStr content p))
    ∧ (check_typescript_error content).isSome
      = (["error TS", "TS2304", "TS2307", "TS2345", "TS2339", "Cannot find module",
          "Type error:", "tsc exited with code"].any (fun p => containsStr content p))
    ∧ (check_out_of_memory content).isSome
      = (["FATAL ERROR: CALL_AND_RETRY_LAST Allocation failed",
          "FATAL ERROR: Ineffective mark-compacts", "JavaScript heap out of memory",
          "ENOMEM", "out of memory", "OOMKilled"].any
           (fun p => containsLower content p)) := by
  refine ⟨?_, ?_, ?_⟩
  · rw [check_npm_ci_failure]
    exact isSome_if _ _
  · rw [check_typescript_error]
    exact isSome_if _ _
  · rw [check_out_of_memory]
    exact isSome_if _ _

/-- Claim C6: the issues emitted by `analyze_logs` carry pairwise-distinct
pattern tags listed in registration order (their tag list is a sublist of
the duplicate-free registry tag list), and the number of issues equals the
number of registered checkers that fire — each checker contributes at most
one issue, and N firing rules yield exactly N issues. -/
theorem classification_order_and_uniqueness (logs : LogContent) :
    ((analyze_logs logs).map Issue.pattern).Sublist ruleTags
    ∧ ruleTags.Nodup
    ∧ (analyze_logs logs).length
        = checkers.countP (fun c => (c logs.raw_content).isSome) := by
  refine ⟨?_, by decide, ?_⟩
  · exact filterMap_pattern_sublist logs.raw_content (checkers_tags logs.raw_content)
  · exact length_filterMap_countP logs.raw_content checkers

/-- Every literal trigger substring registered on the pattern/signal side
of some rule of the battery. -/
def triggerLiterals : List String :=
  ["npm WARN",
     "package-lock.json",
     "npm-shrinkwrap.json",
     "pnpm-lock.yaml",
     "yarn.lock",
     "npm install",
     "npm ci",
     "pnpm install",
     "yarn install",
     "engine \"node\" is incompatible",
     "The engine \"node\" is incompatible",
     "expected node version",
     "NODE_VERSION",
     "nvm use",
     "unsupported engine",
     "environment variable",
     "env var",
     "process.env",
     "undefined variable",
     "REACT_APP_",
     "NEXT_PUBLIC_",
     "VITE_",
     "npm ERR! cipm can only install",
     "npm ERR! `npm ci` can only install",
     "npm ERR! code EUSAGE",
     "npm ERR! The `npm ci` command",
     "ERR_PNPM_",
     "pnpm: command not found",
     "WARN  Moving",
     "ERR_PNPM_PEER_DEP_ISSUES",
     "ERR_PNPM_LOCKFILE_BREAKING_CHANGE",
     "error An unexpected error occurred",
     "YN0001",
     "YN0002",
     "YARN_",
     "amplify.yml",
     "buildspec",
     "YAMLException",
     "Invalid buildspec",
     "build specification",
     "FATAL ERROR: CALL_AND_RETRY_LAST Allocation failed",
     "FATAL ERROR: Ineffective mark-compacts",
     "JavaScript heap out of memory",
     "ENOMEM",
     "out of memory",
     "OOMKilled",
     "timed out",
     "timeout",
     "Build timeout",
     "exceeded time limit",
     "ETIMEDOUT",
     "artifacts baseDirectory",
     "No such file or directory",
     "ENOENT",
     "build artifacts not found",
     "baseDirectory",
     "error TS",
     "TS2304",
     "TS2307",
     "TS2345",
     "TS2339",
     "Cannot find module",
     "Type error:",
     "tsc exited with code",
     "eslint",
     "ESLint",
     "Parsing error:",
     "error  ",
     "âœ– ",
     "Module not found",
     "Module build failed",
     "ModuleNotFoundError",
     "Error: Cannot resolve",
     "EACCES",
     "permission denied",
     "Permission denied",
     "EPERM",
     "operation not permitted",
     "ENOTFOUND",
     "ECONNREFUSED",
     "ECONNRESET",
     "EAI_AGAIN",
     "getaddrinfo",
     "network request failed",
     "socket hang up",
     "docker",
     "Dockerfile",
     "container",
     "DOCKER_",
     "ModuleNotFoundError: No module named",
     "pip install",
     "python:",
     "SyntaxError:",
     "ImportError:",
     "next build",
     "Error occurred prerendering",
     "getStaticProps",
     "getServerSideProps",
     "next.config",
     "NEXT_",
     "vite build",
     "vite:",
     "rollup",
     "esbuild"]

/-- Claim C5: a corpus containing (even case-insensitively) none of the
literal trigger substrings registered by any rule yields the empty issue
list — a successful, empty classification, not an error. -/
theorem clean_corpus_no_issues (logs : LogContent)
    (h : ∀ s ∈ triggerLiterals, containsLower logs.raw_content s = false) :
    analyze_logs logs = [] := by
  have hs : ∀ s ∈ triggerLiterals, containsStr logs.raw_content s = false :=
    fun s hm => containsStr_eq_false _ _ (h s hm)
  have e1_1 : containsStr logs.raw_content "npm WARN" = false := hs _ (by decide)
  have c1 : check_lockfile_mismatch logs.raw_content = none := by
    simp [check_lockfile_mismatch, e1_1]
  have e2_1 : containsStr logs.raw_content "npm install" = false := hs _ (by decide)
  have e2_2 : containsStr logs.raw_content "npm ci" = false := hs _ (by decide)
  have e2_3 : containsStr logs.raw_content "pnpm install" = false := hs _ (by decide)
  have e2_4 : containsStr logs.raw_content "yarn install" = false := hs _ (by decide)
  have c2 : check_package_manager_conflict logs.raw_content = none := by
    simp [check_package_manager_conflict, e2_1, e2_2, e2_3, e2_4]
  have f3_1 : containsLower logs.raw_content "engine \"node\" is incompatible" = false := h _ (by decide)
  have f3_2 : containsLower logs.raw_content "The engine \"node\" is incompatible" = false := h _ (by decide)
  have f3_3 : containsLower logs.raw_content "expected node version" = false := h _ (by decide)
  have f3_4 : containsLower logs.raw_content "NODE_VERSION" = false := h _ (by decide)
  have f3_5 : containsLower logs.raw_content "nvm use" = false := h _ (by decide)
  have f3_6 : containsLower logs.raw_content "unsupported engine" = false := h _ (by decide)
  have c3 : check_node_version_mismatch logs.raw_content = none := by
    simp [check_node_version_mismatch, f3_1, f3_2, f3_3, f3_4, f3_5, f3_6]
  have e4_1 : containsStr logs.raw_content "environment variable" = false := hs _ (by decide)
  have e4_2 : containsStr logs.raw_content "env var" = false := hs _ (by decide)
  have e4_3 : containsStr logs.raw_content "process.env" = false := hs _ (by decide)
  have e4_4 : containsStr logs.raw_content "undefined variable" = false := hs _ (by decide)
  have e4_5 : containsStr logs.raw_content "REACT_APP_" = false := hs _ (by decide)
  have e4_6 : containsStr logs.raw_content "NEXT_PUBLIC_" = false := hs _ (by decide)
  have e4_7 : containsStr logs.raw_content "VITE_" = false := hs _ (by decide)
  have c4 : check_missing_env_vars logs.raw_content = none := by
    simp [check_missing_env_vars, e4_1, e4_2, e4_3, e4_4, e4_5, e4_6, e4_7]
  have e5_1 : containsStr logs.raw_content "npm ERR! cipm can only install" = false := hs _ (by decide)
  have e5_2 : containsStr logs.raw_content "npm ERR! `npm ci` can only install" = false := hs _ (by decide)
  have e5_3 : containsStr logs.raw_content "npm ERR! code EUSAGE" = false := hs _ (by decide)
  have e5_4 : containsStr logs.raw_content "npm ERR! The `npm ci` command" = false := hs _ (by decide)
  have c5 : check_npm_ci_failure logs.raw_content = none := by
    simp [check_npm_ci_failure, e5_1, e5_2, e5_3, e5_4]
  have e6_1 : containsStr logs.raw_content "ERR_PNPM_" = false := hs _ (by decide)
  have e6_2 : containsStr logs.raw_content "pnpm: command not found" = false := hs _ (by decide)
  have e6_3 : containsStr logs.raw_content "WARN  Moving" = false := hs _ (by decide)
  have e6_4 : containsStr logs.raw_content "ERR_PNPM_PEER_DEP_ISSUES" = false := hs _ (by decide)
  have e6_5 : containsStr logs.raw_content "ERR_PNPM_LOCKFILE_BREAKING_CHANGE" = false := hs _ (by decide)
  have c6 : check_pnpm_install_failure logs.raw_content = none := by
    simp [check_pnpm_install_failure, e6_1, e6_2, e6_3, e6_4, e6_5]
  have e7_1 : containsStr logs.raw_content "error An unexpected error occurred" = false := hs _ (by decide)
  have e7_2 : containsStr logs.raw_content "yarn install" = false := hs _ (by decide)
  have e7_3 : containsStr logs.raw_content "YN0001" = false := hs _ (by decide)
  have e7_4 : containsStr logs.raw_content "YN0002" = false := hs _ (by decide)
  have e7_5 : containsStr logs.raw_content "YARN_" = false := hs _ (by decide)
  have e7_6 : containsStr logs.raw_content "yarn.lock" = false := hs _ (by decide)
  have c7 : check_yarn_install_failure logs.raw_content = none := by
    simp [check_yarn_install_failure, e7_1, e7_2, e7_3, e7_4, e7_5, e7_6]
  have f8_1 : containsLower logs.raw_content "amplify.yml" = false := h _ (by decide)
  have f8_2 : containsLower logs.raw_content "buildspec" = false := h _ (by decide)
  have f8_3 : containsLower logs.raw_content "YAMLException" = false := h _ (by decide)
  have f8_4 : containsLower logs.raw_content "Invalid buildspec" = false := h _ (by decide)
  have f8_5 : containsLower logs.raw_content "build specification" = false := h _ (by decide)
  have c8 : check_amplify_yml_error logs.raw_content = none := by
    simp [check_amplify_yml_error, f8_1, f8_2, f8_3, f8_4, f8_5]
  have f9_1 : containsLower logs.raw_content "FATAL ERROR: CALL_AND_RETRY_LAST Allocation failed" = false := h _ (by decide)
  have f9_2 : containsLower logs.raw_content "FATAL ERROR: Ineffective mark-compacts" = false := h _ (by decide)
  have f9_3 : containsLower logs.raw_content "JavaScript heap out of memory" = false := h _ (by decide)
  have f9_4 : containsLower logs.raw_content "ENOMEM" = false := h _ (by decide)
  have f9_5 : containsLower logs.raw_content "out of memory" = false := h _ (by decide)
  have f9_6 : containsLower logs.raw_content "OOMKilled" = false := h _ (by decide)
  have c9 : check_out_of_memory logs.raw_content = none := by
    simp [check_out_of_memory, f9_1, f9_2, f9_3, f9_4, f9_5, f9_6]
  have f10_1 : containsLower logs.raw_content "timed out" = false := h _ (by decide)
  have f10_2 : containsLower logs.raw_content "timeout" = false := h _ (by decide)
  have f10_3 : containsLower logs.raw_content "Build timeout" = false := h _ (by decide)
  have f10_4 : containsLower logs.raw_content "exceeded time limit" = false := h _ (by decide)
  have f10_5 : containsLower logs.raw_content "ETIMEDOUT" = false := h _ (by decide)
  have c10 : check_timeout logs.raw_content = none := by
    simp [check_timeout, f10_1, f10_2, f10_3, f10_4, f10_5]
  have e11_1 : containsStr logs.raw_content "artifacts baseDirectory" = false := hs _ (by decide)
  have e11_2 : containsStr logs.raw_content "No such file or directory" = false := hs _ (by decide)
  have e11_3 : containsStr logs.raw_content "ENOENT" = false := hs _ (by decide)
  have e11_4 : containsStr logs.raw_content "build artifacts not found" = false := hs _ (by decide)
  have e11_5 : containsStr logs.raw_content "baseDirectory" = false := hs _ (by decide)
  have c11 : check_artifact_path_error logs.raw_content = none := by
    simp [check_artifact_path_error, e11_1, e11_2, e11_3, e11_4, e11_5]
  have e12_1 : containsStr logs.raw_content "error TS" = false := hs _ (by decide)
  have e12_2 : containsStr logs.raw_content "TS2304" = false := hs _ (by decide)
  have e12_3 : containsStr logs.raw_content "TS2307" = false := hs _ (by decide)
  have e12_4 : containsStr logs.raw_content "TS2345" = false := hs _ (by decide)
  have e12_5 : containsStr logs.raw_content "TS2339" = false := hs _ (by decide)
  have e12_6 : containsStr logs.raw_content "Cannot find module" = false := hs _ (by decide)
  have e12_7 : containsStr logs.raw_content "Type error:" = false := hs _ (by decide)
  have e12_8 : containsStr logs.raw_content "tsc exited with code" = false := hs _ (by decide)
  have c12 : check_typescript_error logs.raw_content = none := by
    simp [check_typescript_error, e12_1, e12_2, e12_3, e12_4, e12_5, e12_6, e12_7, e12_8]
  have e13_1 : containsStr logs.raw_content "eslint" = false := hs _ (by decide)
  have e13_2 : containsStr logs.raw_content "ESLint" = false := hs _ (by decide)
  have e13_3 : containsStr logs.raw_content "Parsing error:" = false := hs _ (by decide)
  have e13_4 : containsStr logs.raw_content "error  " = false := hs _ (by decide)
  have e13_5 : containsStr logs.raw_content "âœ– " = false := hs _ (by decide)
  have c13 : check_eslint_error logs.raw_content = none := by
    simp [check_eslint_error, e13_1, e13_2, e13_3, e13_4, e13_5]
  have e14_1 : containsStr logs.raw_content "Module not found" = false := hs _ (by decide)
  have e14_2 : containsStr logs.raw_content "Cannot find module" = false := hs _ (by decide)
  have e14_3 : containsStr logs.raw_content "Module build failed" = false := hs _ (by decide)
  have e14_4 : containsStr logs.raw_content "ModuleNotFoundError" = false := hs _ (by decide)
  have e14_5 : containsStr logs.raw_content "Error: Cannot resolve" = false := hs _ (by decide)
  have c14 : check_module_not_found logs.raw_content = none := by
    simp [check_module_not_found, e14_1, e14_2, e14_3, e14_4, e14_5]
  have e15_1 : containsStr logs.raw_content "EACCES" = false := hs _ (by decide)
  have e15_2 : containsStr logs.raw_content "permission denied" = false := hs _ (by decide)
  have e15_3 : containsStr logs.raw_content "Permission denied" = false := hs _ (by decide)
  have e15_4 : containsStr logs.raw_content "EPERM" = false := hs _ (by decide)
  have e15_5 : containsStr logs.raw_content "operation not permitted" = false := hs _ (by decide)
  have c15 : check_permission_denied logs.raw_content = none := by
    simp [check_permission_denied, e15_1, e15_2, e15_3, e15_4, e15_5]
  have e16_1 : containsStr logs.raw_content "ENOTFOUND" = false := hs _ (by decide)
  have e16_2 : containsStr logs.raw_content "ECONNREFUSED" = false := hs _ (by decide)
  have e16_3 : containsStr logs.raw_content "ECONNRESET" = false := hs _ (by decide)
  have e16_4 : containsStr logs.raw_content "EAI_AGAIN" = false := hs _ (by decide)
  have e16_5 : containsStr logs.raw_content "getaddrinfo" = false := hs _ (by decide)
  have e16_6 : containsStr logs.raw_content "network request failed" = false := hs _ (by decide)
  have e16_7 : containsStr logs.raw_content "socket hang up" = false := hs _ (by decide)
  have c16 : check_network_error logs.raw_content = none := by
    simp [check_network_error, e16_1, e16_2, e16_3, e16_4, e16_5, e16_6, e16_7]
  have f17_1 : containsLower logs.raw_content "docker" = false := h _ (by decide)
  have f17_2 : containsLower logs.raw_content "Dockerfile" = false := h _ (by decide)
  have f17_3 : containsLower logs.raw_content "container" = false := h _ (by decide)
  have f17_4 : containsLower logs.raw_content "DOCKER_" = false := h _ (by decide)
  have c17 : check_docker_error logs.raw_content = none := by
    simp [check_docker_error, f17_1, f17_2, f17_3, f17_4]
  have e18_1 : containsStr logs.raw_content "ModuleNotFoundError: No module named" = false := hs _ (by decide)
  have e18_2 : containsStr logs.raw_content "pip install" = false := hs _ (by decide)
  have e18_3 : containsStr logs.raw_content "python:" = false := hs _ (by decide)
  have e18_4 : containsStr logs.raw_content "SyntaxError:" = false := hs _ (by decide)
  have e18_5 : containsStr logs.raw_content "ImportError:" = false := hs _ (by decide)
  have c18 : check_python_error logs.raw_content = none := by
    simp [check_python_error, e18_1, e18_2, e18_3, e18_4, e18_5]
  have e19_1 : containsStr logs.raw_content "next build" = false := hs _ (by decide)
  have e19_2 : containsStr logs.raw_content "Error occurred prerendering" = false := hs _ (by decide)
  have e19_3 : containsStr logs.raw_content "getStaticProps" = false := hs _ (by decide)
  have e19_4 : containsStr logs.raw_content "getServerSideProps" = false := hs _ (by decide)
  have e19_5 : containsStr logs.raw_content "next.config" = false := hs _ (by decide)
  have e19_6 : containsStr logs.raw_content "NEXT_" = false := hs _ (by decide)
  have c19 : check_next_js_error logs.raw_content = none := by
    simp [check_next_js_error, e19_1, e19_2, e19_3, e19_4, e19_5, e19_6]
  have e20_1 : containsStr logs.raw_content "vite build" = false := hs _ (by decide)
  have e20_2 : containsStr logs.raw_content "vite:" = false := hs _ (by decide)
  have e20_3 : containsStr logs.raw_content "VITE_" = false := hs _ (by decide)
  have e20_4 : containsStr logs.raw_content "rollup" = false := hs _ (by decide)
  have e20_5 : containsStr logs.raw_content "esbuild" = false := hs _ (by decide)
  have c20 : check_vite_error logs.raw_content = none := by
    simp [check_vite_error, e20_1, e20_2, e20_3, e20_4, e20_5]
  simp [analyze_logs, checkers, List.filterMap_cons,
    c1, c2, c3, c4, c5, c6, c7, c8, c9, c10,
    c11, c12, c13, c14, c15, c16, c17, c18, c19, c20]

/-- Witness for claim C5 at the clean corpus "Build completed successfully". -/
theorem clean_corpus_no_issues_witness :
    (∀ s ∈ triggerLiterals,
        containsLower (LogContent.mk "Build completed successfully" ""
          "Build completed successfully").raw_content s = false)
    ∧ analyze_logs (LogContent.mk "Build completed successfully" ""
        "Build completed successfully") = [] :=
  ⟨by decide,
   clean_corpus_no_issues (LogContent.mk "Build completed successfully" ""
     "Build completed successfully") (by decide)⟩

end AmplifyMonitor
